import Mathlib

/-!
Verification development for `compute_features.py` (Capstone-Feature-LSTM).

The Python module is embedded shallowly: exceptions become an explicit error
type threaded through `Except`, the file system becomes a function from paths
to optional tables, numeric sample coordinates and timestamps are idealized as
exact rationals, and process-global CLI arguments become an explicit `Args`
record passed to every function that calls `parse_arguments()` in the source.
Line numbers in doc comments refer to `src/compute_features.py`.
-/

deriving instance DecidableEq for Except

namespace CapstoneFeatures

/-- The Python exception kinds this module can raise. -/
inductive PyErr where
  | typeError (msg : String)
  | nameError (msg : String)
  | unboundLocalError (msg : String)
  | valueError (msg : String)
  | indexError (msg : String)
  | systemExit (msg : String)
  | fileNotFoundError (msg : String)
  deriving DecidableEq

/-- The CLI arguments of `parse_arguments` (lines 26-75).  The source calls
`parse_arguments()` from inside `load_seq_save_features` and
`compute_features`, reading process-global `sys.argv`; the embedding passes
the parsed record explicitly. -/
structure Args where
  data_dir : String
  feature_dir : String
  mode : String
  batch_size : Nat
  obs_len : Nat
  pred_len : Nat
  small : Bool
  social_test : Bool
  deriving DecidableEq

/-- One observation row of a scene table.  `pd.read_csv(seq_path,
dtype=\x7b"TIMESTAMP": str\x7d)` (line 198) reads timestamps as strings;
coordinates are idealized as exact rationals. -/
structure ObsRow where
  track_id : String
  object_type : String
  timestamp : String
  x : ℚ
  y : ℚ
  deriving DecidableEq

/-- The Python values occurring in the loop guard of `compute_vel_track`
(line 151): the index (an int) and `range(obs_len)` (a range object). -/
inductive PyVal where
  | intV (n : Int)
  | rangeV (n : Nat)
  deriving DecidableEq

/-- Python binary `-` restricted to the values above: int minus int is
subtraction; any operand that is a range object raises TypeError. -/
def pySub : PyVal → PyVal → Except PyErr PyVal
  | .intV a, .intV b => .ok (.intV (a - b))
  | _, _ => .error (.typeError "unsupported operand types for -: range and int")

/-- `compute_vel_track` (lines 145-178).  The body initializes
`av_velocities = [None] * (obs_len - 1)` and then enters
`while (i != range(obs_len) - 1)`.  Evaluating the guard subtracts the int 1
from the range object `range(obs_len)`, which raises TypeError before the
first iteration of the loop body runs.  (Were the guard written
`i != obs_len - 1`, the first body statement would still raise NameError,
since the module defines `RAW_DATA_FORMAT` but the body reads
`raw_data_format`.)  The `self` parameter of the source signature is dropped;
it is never supplied a meaningful value. -/
def compute_vel_track (av_track : List ObsRow) (obs_len : Nat) :
    Except PyErr (List (Option ℚ)) :=
  let _av_velocities : List (Option ℚ) := List.replicate (obs_len - 1) none
  match pySub (.rangeV obs_len) (.intV 1) with
  | .error e => .error e
  | .ok _ => .error (.nameError "name raw_data_format is not defined")

/-- The elapsed-time denominator of the velocity expressions, exactly as
written at lines 171-172 and 267-268 of the source:
`vel_x = (x_t2 - x_t1)/(time_t2 - time_t2)` — both operands of the
subtraction are the same variable `time_t2`; `time_t1` is bound but never
used in the denominator. -/
def velDenominator (time_t1 time_t2 : ℚ) : ℚ := time_t2 - time_t2

/-- One velocity component as written in the source (idealized over ℚ,
where division by zero is the ℚ junk value 0 rather than a Python
ZeroDivisionError or a NaN). -/
def velComponent (c1 c2 t1 t2 : ℚ) : ℚ := (c2 - c1) / velDenominator t1 t2

/-- Python `str.endswith`, used at line 101. -/
def pyEndsWith (s suf : String) : Bool := List.isSuffixOf suf.data s.data

/-- `seq.split(".")[0]` (line 105): the characters of `seq` strictly before
its first dot (the whole string when there is no dot). -/
def splitDotHead (s : String) : String :=
  String.mk (s.data.takeWhile (fun c => c != '.'))

/-- Decimal digit accumulation for `pyInt`. -/
def parseNatDigits : List Char → Nat → Option Nat
  | [], acc => some acc
  | c :: cs, acc =>
    if c.isDigit then parseNatDigits cs (acc * 10 + (c.toNat - 48)) else none

/-- Python `int(...)` on a string (line 105): an optionally negated decimal
literal parses; anything else raises ValueError.  (Python additionally
strips whitespace and accepts a leading plus sign and digit-group
underscores; none of those occur in the file names at issue.) -/
def pyInt (s : String) : Except PyErr Int :=
  let core : Option Int :=
    match s.data with
    | [] => none
    | '-' :: cs =>
      if cs.isEmpty then none else (parseNatDigits cs 0).map (fun n => -(n : Int))
    | cs => (parseNatDigits cs 0).map (fun n => (n : Int))
  match core with
  | some n => .ok n
  | none => .error (.valueError ("invalid literal for int with base 10: " ++ s))

/-- Python list slice `l[a:b]` for `0 ≤ a ≤ b` (line 99). -/
def pySlice (l : List α) (a b : Nat) : List α := (l.drop a).take (b - a)

/-- One accumulated feature row (lines 112-118): the parsed sequence id
followed by the payload unpacked from `compute_features`.  The `fname` field
is ghost instrumentation recording which file produced the row; it is not a
column of the artifact. -/
structure RowE (F : Type) where
  fname : String
  seqId : Int
  payload : F
  deriving DecidableEq

/-- The column list of the batch artifact `DataFrame` (lines 124-133). -/
def batchArtifactColumns : List String :=
  ["SEQUENCE", "FEATURES", "CANDIDATE_CENTERLINES", "ORACLE_CENTERLINE",
   "CANDIDATE_NT_DISTANCES"]

/-- The outcome of one successful `load_seq_save_features` call: the pickle
path written to (line 138), the artifact columns, its rows, and the progress
lines printed along the way (lines 120-122). -/
structure LoadOutcome (F : Type) where
  artifactPath : String
  columns : List String
  rows : List (RowE F)
  printed : List String
  deriving DecidableEq

/-- The progress line printed after each processed scene (lines 120-122). -/
def progressLine (args : Args) (start_idx count : Nat) : String :=
  args.mode ++ ":" ++ toString count ++ "/" ++ toString args.batch_size ++
    " with start " ++ toString start_idx ++ " and end " ++
    toString (start_idx + args.batch_size)

/-- The per-scene loop of `load_seq_save_features` (lines 99-122),
parameterized by the result `cf path` of the call
`compute_features(file_path, ...)` followed by the tuple unpacking at
line 108.  A file not ending in `.csv` is skipped (line 101-102, no
diagnostic); otherwise the name head is parsed with `int` (line 105, a
ValueError aborts the batch), `cf` runs (an exception aborts the batch), and
on success the row is appended and a progress line printed. -/
def processBatch (cf : String → Except PyErr F) (args : Args) (start_idx : Nat) :
    List String → Nat → List (RowE F) → List String →
    Except PyErr (List (RowE F) × List String)
  | [], _count, acc, pr => .ok (acc, pr)
  | seq :: rest, count, acc, pr =>
    if pyEndsWith seq ".csv" then
      match pyInt (splitDotHead seq) with
      | .error e => .error e
      | .ok sid =>
        match cf (args.data_dir ++ "/" ++ seq) with
        | .error e => .error e
        | .ok payload =>
          processBatch cf args start_idx rest (count + 1)
            (acc ++ [⟨seq, sid, payload⟩])
            (pr ++ [progressLine args start_idx (count + 1)])
    else
      processBatch cf args start_idx rest count acc pr

/-- `load_seq_save_features` (lines 78-139): slice the batch out of
`sequences` (line 99), run the per-scene loop, then build the five-column
`DataFrame` (lines 124-133) and write it to the batch pickle (lines
136-139).  A `.ok` result models the artifact file having been written; a
`.error` result models the uncaught exception propagating before the write. -/
def load_seq_save_features (cf : String → Except PyErr F) (args : Args)
    (start_idx : Nat) (sequences : List String) (save_dir : String) :
    Except PyErr (LoadOutcome F) :=
  match processBatch cf args start_idx
      (pySlice sequences start_idx (start_idx + args.batch_size)) 0 [] [] with
  | .error e => .error e
  | .ok (rows, pr) =>
    .ok { artifactPath := save_dir ++ "/forecasting_features_" ++ args.mode ++
            "_" ++ toString start_idx ++ "_" ++
            toString (start_idx + args.batch_size) ++ ".pkl"
          columns := batchArtifactColumns
          rows := rows
          printed := pr }

/-- `compute_features` (lines 183-360).  The file system is `fs`; a missing
file raises on `pd.read_csv` (line 198).  In `social_test` mode the body
reads the AV row id (line 211, IndexError when absent) and then reads the
local `df_copy` (line 214) which is only ever assigned later (line 293), so
the read raises UnboundLocalError; the `sys.exit("Test in progress")` at
line 324 is unreachable.  Otherwise the body computes social features via
the external collaborator (lines 329-334, modeled as total and effect-free,
its result unused afterward); everything from line 338 on is commented out,
so the function falls off the end and returns Python None (modeled `.ok ()`). -/
def compute_features (args : Args) (fs : String → Option (List ObsRow))
    (seq_path : String) : Except PyErr Unit :=
  match fs seq_path with
  | none => .error (.fileNotFoundError seq_path)
  | some df =>
    if args.social_test then
      match df.filter (fun r => r.object_type == "AV") with
      | [] => .error (.indexError "single positional indexer is out-of-bounds")
      | _ :: _ =>
        .error (.unboundLocalError
          "local variable df_copy referenced before assignment")
    else
      .ok ()

/-- The call site at lines 108-110:
`features, map_feature_helpers = compute_features(...)`.
The only normal return path of `compute_features` yields None, so the tuple
unpacking raises TypeError whenever the call itself does not raise. -/
def computeF_actual (args : Args) (fs : String → Option (List ObsRow)) :
    String → Except PyErr (Unit × Unit) := fun p =>
  match compute_features args fs p with
  | .error e => .error e
  | .ok () => .error (.typeError "cannot unpack non-iterable NoneType object")

/-- Python `range(start, stop, step)` for a positive step (line 413/421:
`range(0, num_sequences, args.batch_size)`). -/
def pyRangeStep (start stop step : Nat) : List Nat :=
  if h : 0 < step ∧ start < stop then
    start :: pyRangeStep (start + step) stop step
  else []
termination_by stop - start
decreasing_by simp_wf; omega

/-- The function names actually defined at module level in
`compute_features.py`: `parse_arguments` (line 26), `load_seq_save_features`
(line 78), `compute_vel_track` (line 145) and `compute_features` (line 183).
`merge_saved_features` (lines 363-385) is entirely commented out, and none
of the imported modules binds that name either. -/
def moduleFunctionNames : List String :=
  ["parse_arguments", "load_seq_save_features", "compute_vel_track",
   "compute_features"]

/-- Calling a module-level function by name: a name not bound at module
level raises NameError at the call site. -/
def resolveName (f : String) : Except PyErr Unit :=
  if f ∈ moduleFunctionNames then .ok () else
    .error (.nameError (f ++ " is not defined"))

/-- The batch jobs launched by `Parallel` (lines 407-421), modeled
sequentially: joblib re-raises the first worker exception in the parent. -/
def runBatches (args : Args) (fs : String → Option (List ObsRow))
    (sequences : List String) (dir : String) (starts : List Nat) :
    Except PyErr (List (LoadOutcome (Unit × Unit))) :=
  starts.mapM (fun s =>
    load_seq_save_features (computeF_actual args fs) args s sequences dir)

/-- The `__main__` block (lines 388-427).  `num_sequences` is the small
cap or the directory listing length (line 400); `range` with step 0 raises
ValueError; in `social_test` mode the merge step is skipped (lines 402-413),
otherwise the batches are followed by the call
`merge_saved_features(temp_save_dir)` (line 422).  A `.ok ()` result models
the run completing with the final artifact written. -/
def runMain (args : Args) (fs : String → Option (List ObsRow))
    (smallSize : Nat) (sequences : List String) (tempDir : String) :
    Except PyErr Unit :=
  let num := if args.small then smallSize else sequences.length
  if args.batch_size = 0 then
    .error (.valueError "range arg 3 must not be zero")
  else
    match runBatches args fs sequences tempDir (pyRangeStep 0 num args.batch_size) with
    | .error e => .error e
    | .ok _ =>
      if args.social_test then
        .ok ()
      else
        match resolveName "merge_saved_features" with
        | .error e => .error e
        | .ok _ => .ok ()

/-! Concrete inputs used by witnesses and counterexamples. -/

/-- A parsed argument record with the CLI defaults (lines 39-74) and
`--mode test`. -/
def argsBase : Args :=
  { data_dir := "d", feature_dir := "f", mode := "test", batch_size := 100,
    obs_len := 20, pred_len := 30, small := false, social_test := false }

/-- The same arguments with `--social_test True`. -/
def argsSocial : Args := { argsBase with social_test := true }

/-- The same arguments with `--mode train`. -/
def argsTrain : Args := { argsBase with mode := "train" }

/-- A file system with no readable scene files. -/
def fsMissing : String → Option (List ObsRow) := fun _ => none

/-- A file system with the single scene `d/1.csv` holding one AV sample. -/
def fsOneScene : String → Option (List ObsRow) := fun p =>
  if p = "d/1.csv" then some [⟨"track0", "AV", "0.1", 0, 0⟩] else none

/-- A compute stand-in that always succeeds with a trivial payload. -/
def cfOkUnit : String → Except PyErr Unit := fun _ => .ok ()

/-- The artifact written for an all-skipped batch under `argsBase`. -/
def outcomeEmpty : LoadOutcome Unit :=
  { artifactPath := "t/forecasting_features_test_0_100.pkl",
    columns := batchArtifactColumns, rows := [], printed := [] }

/-- The single row produced for the scene file `42.csv`. -/
def row42 : RowE Unit := ⟨"42.csv", 42, ()⟩

/-- The artifact written for the one-scene batch `["42.csv"]` under
`argsBase` with a trivially succeeding compute stand-in. -/
def outcome42 : LoadOutcome Unit :=
  { artifactPath := "t/forecasting_features_test_0_100.pkl",
    columns := batchArtifactColumns, rows := [row42],
    printed := [progressLine argsBase 0 1] }

/-- An arbitrary outcome value, used to state that no outcome is produced. -/
def outcomeDummy : LoadOutcome (Unit × Unit) :=
  { artifactPath := "", columns := [], rows := [], printed := [] }

/-! Helper lemmas. -/

lemma slicesJoinAux (l : List α) (b : Nat) (hb : 0 < b) :
    ∀ (m s : Nat), l.length - s ≤ m →
      ((pyRangeStep s l.length b).map (fun t => pySlice l t (t + b))).flatten =
        l.drop s := by
  intro m
  induction m with
  | zero =>
    intro s hs
    rw [pyRangeStep, dif_neg (by omega)]
    simp only [List.map_nil, List.flatten_nil]
    exact (List.drop_eq_nil_of_le (by omega)).symm
  | succ m ih =>
    intro s hs
    rw [pyRangeStep]
    by_cases hlt : s < l.length
    · rw [dif_pos ⟨hb, hlt⟩]
      simp only [List.map_cons, List.flatten_cons]
      rw [ih (s + b) (by omega)]
      show (l.drop s).take (s + b - s) ++ l.drop (s + b) = l.drop s
      have h2 : s + b - s = b := by omega
      rw [h2, ← List.drop_drop, List.take_append_drop]
    · rw [dif_neg (by omega)]
      simp only [List.map_nil, List.flatten_nil]
      exact (List.drop_eq_nil_of_le (by omega)).symm

lemma pyRangeStep_mem_le (stop b : Nat) :
    ∀ (m s x : Nat), stop - s ≤ m → x ∈ pyRangeStep s stop b → s ≤ x := by
  intro m
  induction m with
  | zero =>
    intro s x hs hx
    rw [pyRangeStep, dif_neg (by omega)] at hx
    cases hx
  | succ m ih =>
    intro s x hs hx
    rw [pyRangeStep] at hx
    by_cases hcond : 0 < b ∧ s < stop
    · rw [dif_pos hcond] at hx
      rcases List.mem_cons.mp hx with rfl | hx2
      · exact le_refl x
      · have := ih (s + b) x (by omega) hx2
        omega
    · rw [dif_neg hcond] at hx
      cases hx

lemma pyRangeStep_pairwise (stop b : Nat) (hb : 0 < b) :
    ∀ (m s : Nat), stop - s ≤ m → List.Pairwise (· < ·) (pyRangeStep s stop b) := by
  intro m
  induction m with
  | zero =>
    intro s hs
    rw [pyRangeStep, dif_neg (by omega)]
    exact List.Pairwise.nil
  | succ m ih =>
    intro s hs
    rw [pyRangeStep]
    by_cases hlt : s < stop
    · rw [dif_pos ⟨hb, hlt⟩]
      refine List.Pairwise.cons ?_ (ih (s + b) (by omega))
      intro x hx
      have := pyRangeStep_mem_le stop b (stop - (s + b)) (s + b) x (le_refl _) hx
      omega
    · rw [dif_neg (by omega)]
      exact List.Pairwise.nil

lemma processBatch_rows_spec (F : Type) (cf : String → Except PyErr F) (args : Args)
    (start_idx : Nat) :
    ∀ (seqs : List String) (count : Nat) (acc : List (RowE F)) (pr : List String)
      (rows : List (RowE F)) (pr2 : List String),
      processBatch cf args start_idx seqs count acc pr = .ok (rows, pr2) →
      (∀ r ∈ acc, pyInt (splitDotHead r.fname) = .ok r.seqId) →
      ∀ r ∈ rows, pyInt (splitDotHead r.fname) = .ok r.seqId := by
  intro seqs
  induction seqs with
  | nil =>
    intro count acc pr rows pr2 h hacc
    rw [processBatch] at h
    injection h with h
    obtain ⟨h1, h2⟩ := Prod.mk.injEq .. ▸ h
    subst h1
    exact hacc
  | cons seq rest ih =>
    intro count acc pr rows pr2 h hacc
    rw [processBatch] at h
    by_cases hc : pyEndsWith seq ".csv"
    · rw [if_pos hc] at h
      cases hint : pyInt (splitDotHead seq) with
      | error e => rw [hint] at h; cases h
      | ok sid =>
        rw [hint] at h
        cases hcf : cf (args.data_dir ++ "/" ++ seq) with
        | error e => rw [hcf] at h; cases h
        | ok payload =>
          rw [hcf] at h
          refine ih _ _ _ _ _ h ?_
          intro r hr
          rcases List.mem_append.mp hr with h1 | h1
          · exact hacc r h1
          · rcases List.mem_singleton.mp h1 with rfl
            exact hint
    · rw [if_neg hc] at h
      exact ih _ _ _ _ _ h hacc

lemma takeWhileNoDot (tail : List Char) :
    ∀ (a : List Char), (∀ c ∈ a, c ≠ '.') →
      (a ++ '.' :: tail).takeWhile (fun c => c != '.') = a := by
  intro a
  induction a with
  | nil => simp
  | cons c a ih =>
    intro h
    have hc : (c != '.') = true := by
      simpa using h c (List.mem_cons_self c a)
    simp only [List.cons_append, List.takeWhile_cons, hc, if_true]
    rw [ih (fun x hx => h x (List.mem_cons_of_mem _ hx))]

lemma splitDotHead_csv (st : String) (h : ∀ c ∈ st.data, c ≠ '.') :
    splitDotHead (st ++ ".csv") = st := by
  unfold splitDotHead
  have hd : (st ++ (".csv" : String)).data = st.data ++ '.' :: ['c', 's', 'v'] := by
    rw [String.data_append]
  rw [hd, takeWhileNoDot _ _ h]

lemma computeF_actual_never_ok (args : Args) (fs : String → Option (List ObsRow))
    (p : String) (v : Unit × Unit) : computeF_actual args fs p ≠ .ok v := by
  unfold computeF_actual
  cases compute_features args fs p <;> simp

lemma processBatch_never_ok_of_csv (F : Type) (cf : String → Except PyErr F)
    (hcf : ∀ p v, cf p ≠ .ok v) (args : Args) (start_idx : Nat) :
    ∀ (seqs : List String) (count : Nat) (acc : List (RowE F)) (pr : List String),
      (∃ s ∈ seqs, pyEndsWith s ".csv" = true) →
      ∀ res, processBatch cf args start_idx seqs count acc pr ≠ .ok res := by
  intro seqs
  induction seqs with
  | nil =>
    rintro count acc pr ⟨s, hs, _⟩ res
    cases hs
  | cons seq rest ih =>
    rintro count acc pr ⟨s, hs, hscsv⟩ res h
    rw [processBatch] at h
    by_cases hc : pyEndsWith seq ".csv"
    · rw [if_pos hc] at h
      cases hint : pyInt (splitDotHead seq) with
      | error e => rw [hint] at h; cases h
      | ok sid =>
        rw [hint] at h
        cases hcfv : cf (args.data_dir ++ "/" ++ seq) with
        | error e => rw [hcfv] at h; cases h
        | ok v => exact hcf _ v hcfv
    · rw [if_neg hc] at h
      rcases List.mem_cons.mp hs with rfl | hs2
      · exact hc hscsv
      · exact ih count acc pr ⟨s, hs2, hscsv⟩ res h

lemma processBatch_all_non_csv (F : Type) (cf : String → Except PyErr F)
    (args : Args) (start_idx : Nat) :
    ∀ (seqs : List String) (count : Nat) (acc : List (RowE F)) (pr : List String),
      (∀ s ∈ seqs, pyEndsWith s ".csv" = false) →
      processBatch cf args start_idx seqs count acc pr = .ok (acc, pr) := by
  intro seqs
  induction seqs with
  | nil => intro count acc pr _; rw [processBatch]
  | cons seq rest ih =>
    intro count acc pr h
    rw [processBatch, if_neg (by
      rw [h seq (List.mem_cons_self seq rest)]; exact Bool.false_ne_true)]
    exact ih count acc pr (fun s hs => h s (List.mem_cons_of_mem _ hs))

/-! Claim theorems. -/

/-- C1: the claim says each per-step velocity is `(Δx, Δy)` divided by the
elapsed time between sample `i` and sample `i+1`, with a zero or negative
`Δt` reported as a data-integrity error.  In the code the denominator is the
expression `time_t2 - time_t2` (lines 171-172 and 267-268), which is
identically zero for every pair of timestamps — in particular at the
failing input `t1 = 0, t2 = 1/10`, where the true elapsed time `1/10` is
nonzero — and no zero-elapsed-time check exists anywhere in the module. -/
theorem c1_code_divides_by_timestamp_minus_itself :
    velDenominator 0 (1/10) = 0 ∧ ((1 : ℚ)/10 - 0 ≠ 0) ∧
      ∀ t1 t2 : ℚ, velDenominator t1 t2 = 0 :=
  ⟨by norm_num [velDenominator], by norm_num, fun t1 t2 => sub_self t2⟩

/-- C2: the claim says the velocity loop of `compute_vel_track` terminates
normally and returns `obs_len - 1` velocity values.  In the code the loop
guard `while (i != range(obs_len) - 1)` subtracts an int from a range
object, which raises TypeError before the first iteration for every track
and every `obs_len`, so the function never returns a value. -/
theorem c2_compute_vel_track_always_raises (av_track : List ObsRow)
    (obs_len : Nat) :
    compute_vel_track av_track obs_len =
      .error (.typeError "unsupported operand types for -: range and int") := rfl

/-- C3 (amended): every batch artifact table has exactly the five columns
SEQUENCE, FEATURES, CANDIDATE_CENTERLINES, ORACLE_CENTERLINE and
CANDIDATE_NT_DISTANCES: it contains a SEQUENCE column but no TRACK_ID
column. -/
theorem c3_artifact_columns (F : Type) (cf : String → Except PyErr F)
    (args : Args) (start_idx : Nat) (sequences : List String) (dir : String)
    (o : LoadOutcome F)
    (h : load_seq_save_features cf args start_idx sequences dir = .ok o) :
    o.columns = batchArtifactColumns ∧ "SEQUENCE" ∈ o.columns ∧
      "TRACK_ID" ∉ o.columns := by
  unfold load_seq_save_features at h
  cases hp : processBatch cf args start_idx
      (pySlice sequences start_idx (start_idx + args.batch_size)) 0 [] [] with
  | error e => rw [hp] at h; cases h
  | ok x =>
    obtain ⟨rows, pr⟩ := x
    rw [hp] at h
    injection h with h
    rw [← h]
    refine ⟨rfl, ?_, ?_⟩
    · show "SEQUENCE" ∈ batchArtifactColumns
      decide
    · show "TRACK_ID" ∉ batchArtifactColumns
      decide

/-- C3 counterexample: the batch artifact written for a concrete batch (the
empty batch under the default arguments) has the five-column schema, which
does not contain a TRACK_ID column, refuting the claim that every batch
artifact contains both SEQUENCE and TRACK_ID columns. -/
theorem c3_counterexample :
    (load_seq_save_features cfOkUnit argsBase 0 [] "t").map (fun o => o.columns) =
      .ok batchArtifactColumns ∧ "TRACK_ID" ∉ batchArtifactColumns :=
  ⟨by decide, by decide⟩

/-- C3 witness: the amended theorem applied to the concrete empty batch. -/
theorem c3_witness :
    outcomeEmpty.columns = batchArtifactColumns ∧
      "SEQUENCE" ∈ outcomeEmpty.columns ∧ "TRACK_ID" ∉ outcomeEmpty.columns :=
  c3_artifact_columns Unit cfOkUnit argsBase 0 [] "t" outcomeEmpty (by decide)

/-- C4: for every scene list and every positive batch size, the batch starts
`range(0, N, batch_size)` together with the slices `sequences[s : s + b]`
partition the list into contiguous, non-overlapping batches that
concatenate back to the list in order (so each index is covered exactly
once and each batch is processed in ascending index order), and the batch
starts are strictly increasing. -/
theorem c4_batch_partition (α : Type) (l : List α) (b : Nat) (hb : 0 < b) :
    ((pyRangeStep 0 l.length b).map (fun s => pySlice l s (s + b))).flatten = l
    ∧ List.Pairwise (· < ·) (pyRangeStep 0 l.length b) := by
  constructor
  · have := slicesJoinAux l b hb l.length 0 (by omega)
    simpa using this
  · exact pyRangeStep_pairwise l.length b hb l.length 0 (by omega)

/-- C4 witness: the partition theorem at the concrete scene index of length
5 with batch size 2. -/
theorem c4_witness :
    0 < 2 ∧
    (((pyRangeStep 0 (List.range 5).length 2).map
        (fun s => pySlice (List.range 5) s (s + 2))).flatten = List.range 5
      ∧ List.Pairwise (· < ·) (pyRangeStep 0 (List.range 5).length 2)) :=
  ⟨by decide, c4_batch_partition ℕ (List.range 5) 2 (by decide)⟩

/-- C5: the claim says the Merger concatenates the batch artifacts into one
final artifact.  In the code the whole definition of `merge_saved_features`
(lines 363-385) is commented out while the call at line 422 remains, so
every run that reaches the merge step raises NameError — and runs whose
batches contain a readable scene raise even earlier — hence a
non-`social_test` run never completes and no final artifact is ever
produced, for any arguments, file system and scene listing. -/
theorem c5_main_never_completes (args : Args)
    (fs : String → Option (List ObsRow)) (smallSize : Nat)
    (sequences : List String) (tempDir : String) :
    runMain { args with social_test := false } fs smallSize sequences tempDir ≠
      .ok () := by
  intro hok
  unfold runMain at hok
  by_cases hb : ({ args with social_test := false } : Args).batch_size = 0
  · rw [if_pos hb] at hok; cases hok
  · rw [if_neg hb] at hok
    cases hr : runBatches { args with social_test := false } fs sequences tempDir
        (pyRangeStep 0
          (if ({ args with social_test := false } : Args).small then smallSize
           else sequences.length)
          ({ args with social_test := false } : Args).batch_size) with
    | error e => rw [hr] at hok; cases hok
    | ok xs =>
      rw [hr] at hok
      have hm : resolveName "merge_saved_features" =
          .error (.nameError "merge_saved_features is not defined") := by decide
      rw [if_neg (by simp)] at hok
      rw [hm] at hok
      cases hok

/-- C6: every row appended for a processed scene file carries as its
SEQUENCE value the integer parsed from the part of the file name before its
first dot; for a file named `<sequence_id>.csv` (no further dots) that part
is exactly the file-name stem. -/
theorem c6_row_sequence_from_filename (F : Type) (cf : String → Except PyErr F)
    (args : Args) (start_idx : Nat) (sequences : List String) (dir : String)
    (o : LoadOutcome F)
    (h : load_seq_save_features cf args start_idx sequences dir = .ok o) :
    ∀ r ∈ o.rows, ∀ st : String, r.fname = st ++ ".csv" →
      (∀ c ∈ st.data, c ≠ '.') → pyInt st = .ok r.seqId := by
  intro r hr st hname hdot
  have hrow : pyInt (splitDotHead r.fname) = .ok r.seqId := by
    unfold load_seq_save_features at h
    cases hp : processBatch cf args start_idx
        (pySlice sequences start_idx (start_idx + args.batch_size)) 0 [] [] with
    | error e => rw [hp] at h; cases h
    | ok x =>
      obtain ⟨rows, pr⟩ := x
      rw [hp] at h
      injection h with h
      refine processBatch_rows_spec F cf args start_idx _ _ _ _ _ _ hp ?_ r ?_
      · intro r hr; cases hr
      · rw [← h] at hr
        exact hr
  rw [hname, splitDotHead_csv st hdot] at hrow
  exact hrow

/-- C6 witness: the scene file `42.csv` yields exactly the row with
SEQUENCE 42. -/
theorem c6_witness :
    load_seq_save_features cfOkUnit argsBase 0 ["42.csv"] "t" = .ok outcome42 ∧
      pyInt "42" = .ok (42 : Int) :=
  ⟨by decide, c6_row_sequence_from_filename Unit cfOkUnit argsBase 0 ["42.csv"]
    "t" outcome42 (by decide) row42 (by decide) "42" (by decide) (by decide)⟩

/-- C7 (amended): a file whose name does not end in `.csv` is skipped
silently — the batch state, including the printed diagnostics, is exactly
as if the file were absent — and does not abort the batch; but a `.csv`
file whose leading name segment is not an integer raises ValueError and
aborts the whole batch, so no batch artifact is written. -/
theorem c7_skip_silent_and_parse_abort (F : Type) (cf : String → Except PyErr F)
    (args : Args) (start_idx : Nat) (seq : String) (rest : List String)
    (count : Nat) (acc : List (RowE F)) (pr : List String) :
    (pyEndsWith seq ".csv" = false →
      processBatch cf args start_idx (seq :: rest) count acc pr =
        processBatch cf args start_idx rest count acc pr)
    ∧ (∀ e, pyEndsWith seq ".csv" = true → pyInt (splitDotHead seq) = .error e →
        processBatch cf args start_idx (seq :: rest) count acc pr = .error e) := by
  constructor
  · intro hf
    rw [processBatch, if_neg (by rw [hf]; exact Bool.false_ne_true)]
  · intro e ht he
    rw [processBatch, if_pos ht, he]

/-- C7 counterexample: the concrete batch `["foo.csv"]` aborts with
ValueError at `int("foo")` and writes no artifact, refuting the claim that
a file with an unparseable name is skipped with a diagnostic and the batch
artifact still written. -/
theorem c7_counterexample :
    load_seq_save_features (computeF_actual argsBase fsMissing) argsBase 0
        ["foo.csv"] "t" =
      .error (.valueError "invalid literal for int with base 10: foo") := by
  decide

/-- C7 witness: the amended theorem at the concrete files `notes.txt`
(skipped silently, batch continues) and `foo.csv` (ValueError aborts). -/
theorem c7_witness :
    processBatch cfOkUnit argsBase 0 ["notes.txt", "7.csv"] 0 [] [] =
        processBatch cfOkUnit argsBase 0 ["7.csv"] 0 [] []
    ∧ processBatch cfOkUnit argsBase 0 ["foo.csv"] 0 [] [] =
        .error (.valueError "invalid literal for int with base 10: foo") :=
  ⟨(c7_skip_silent_and_parse_abort Unit cfOkUnit argsBase 0 "notes.txt"
      ["7.csv"] 0 [] []).1 (by decide),
   (c7_skip_silent_and_parse_abort Unit cfOkUnit argsBase 0 "foo.csv"
      [] 0 [] []).2 _ (by decide) (by decide)⟩

/-- C8 (amended): `compute_features` is not a pure function of its declared
arguments: it re-parses the process-global CLI arguments internally, and
its result depends on them — the global `social_test` flag selects a
completely different behavior.  For fixed global arguments (in the
embedding, for an equal `social_test` flag) and a fixed file system its
result is determined. -/
theorem c8_depends_only_on_social_flag (args1 args2 : Args)
    (fs : String → Option (List ObsRow)) (p : String)
    (h : args1.social_test = args2.social_test) :
    compute_features args1 fs p = compute_features args2 fs p := by
  unfold compute_features
  rw [h]

/-- C8 counterexample: two calls of `compute_features` with identical
declared arguments (the same path and file system) but different
process-global CLI arguments return different results, refuting the claim
that the result depends only on the declared arguments. -/
theorem c8_counterexample :
    compute_features argsSocial fsOneScene "d/1.csv" ≠
      compute_features argsBase fsOneScene "d/1.csv" := by decide

/-- C8 witness: the amended determinism theorem at concrete global
arguments differing only in fields other than `social_test`. -/
theorem c8_witness :
    argsBase.social_test = argsTrain.social_test ∧
      compute_features argsBase fsOneScene "d/1.csv" =
        compute_features argsTrain fsOneScene "d/1.csv" :=
  ⟨rfl, c8_depends_only_on_social_flag argsBase argsTrain fsOneScene
    "d/1.csv" rfl⟩

/-- C9 (amended): in `social_test` mode the first `.csv` scene of a batch
always raises before the artifact-writing step — UnboundLocalError on
`df_copy` (line 214) when the scene loads and has an AV row, IndexError
when it has no AV row, FileNotFoundError when unreadable, ValueError when
the name head is not an integer — so a batch whose slice contains a `.csv`
file never writes an intermediate artifact; the `sys.exit("Test in
progress")` at line 324 is unreachable.  (A batch slice with no `.csv`
file still writes its empty artifact even in `social_test` mode.) -/
theorem c9_social_batch_never_writes (args : Args)
    (fs : String → Option (List ObsRow)) (start_idx : Nat)
    (sequences : List String) (dir : String)
    (hsoc : args.social_test = true)
    (hcsv : ∃ s ∈ pySlice sequences start_idx (start_idx + args.batch_size),
      pyEndsWith s ".csv" = true)
    (o : LoadOutcome (Unit × Unit)) :
    load_seq_save_features (computeF_actual args fs) args start_idx sequences
      dir ≠ .ok o := by
  intro h
  unfold load_seq_save_features at h
  cases hp : processBatch (computeF_actual args fs) args start_idx
      (pySlice sequences start_idx (start_idx + args.batch_size)) 0 [] [] with
  | error e => rw [hp] at h; cases h
  | ok x =>
    exact processBatch_never_ok_of_csv _ _
      (fun p v => computeF_actual_never_ok args fs p v) args start_idx
      _ 0 [] [] hcsv x hp

/-- C9 counterexample: on a concrete readable scene with an AV row,
`compute_features` in `social_test` mode raises UnboundLocalError on
`df_copy`, not SystemExit "Test in progress", refuting the claim about
which exception interrupts the batch. -/
theorem c9_counterexample :
    compute_features argsSocial fsOneScene "d/1.csv" =
      .error (.unboundLocalError
        "local variable df_copy referenced before assignment")
    ∧ compute_features argsSocial fsOneScene "d/1.csv" ≠
        .error (.systemExit "Test in progress") :=
  ⟨by decide, by decide⟩

/-- C9 witness: the amended theorem at the concrete one-scene batch in
`social_test` mode. -/
theorem c9_witness :
    argsSocial.social_test = true ∧
      load_seq_save_features (computeF_actual argsSocial fsOneScene) argsSocial
        0 ["1.csv"] "d" ≠ .ok outcomeDummy :=
  ⟨rfl, c9_social_batch_never_writes argsSocial fsOneScene 0 ["1.csv"] "d" rfl
    ⟨"1.csv", by decide, by decide⟩ outcomeDummy⟩

/-- C10: a batch whose slice contains no file ending in `.csv` does not
raise: it writes an intermediate artifact holding a table with zero rows
and exactly the columns SEQUENCE, FEATURES, CANDIDATE_CENTERLINES,
ORACLE_CENTERLINE, CANDIDATE_NT_DISTANCES (and prints nothing). -/
theorem c10_empty_batch_empty_artifact (F : Type) (cf : String → Except PyErr F)
    (args : Args) (start_idx : Nat) (sequences : List String) (dir : String)
    (h : ∀ s ∈ pySlice sequences start_idx (start_idx + args.batch_size),
      pyEndsWith s ".csv" = false) :
    load_seq_save_features cf args start_idx sequences dir =
      .ok { artifactPath := dir ++ "/forecasting_features_" ++ args.mode ++
              "_" ++ toString start_idx ++ "_" ++
              toString (start_idx + args.batch_size) ++ ".pkl",
            columns := batchArtifactColumns, rows := [], printed := [] } := by
  unfold load_seq_save_features
  rw [processBatch_all_non_csv F cf args start_idx _ 0 [] [] h]

/-- C10 witness: the concrete batch `["a.txt", "b.md"]` writes the empty
five-column artifact. -/
theorem c10_witness :
    load_seq_save_features cfOkUnit argsBase 0 ["a.txt", "b.md"] "t" =
      .ok { artifactPath := "t/forecasting_features_test_0_100.pkl",
            columns := batchArtifactColumns, rows := [], printed := [] } :=
  c10_empty_batch_empty_artifact Unit cfOkUnit argsBase 0 ["a.txt", "b.md"] "t"
    (by decide)

end CapstoneFeatures
